import Mathlib

/-!
Verification of the batch orchestration and result-merging pipeline of the
`@reverse-craft/ai-tools` repository (`src/tokenizer.ts`, `src/jsvmpDetector.ts`).

The TypeScript sources are shallowly embedded: pure functions become Lean
functions, thrown exceptions become `Except String`, JavaScript numbers become
`Rat` (no overflow is involved anywhere), and the two external capabilities
(the tiktoken encoder and the LLM `analyze` call) become explicit function
parameters, since the source treats both as opaque.
-/

namespace AiTools

/-! ## Tokenizer module (`src/tokenizer.ts`)

`splitByTokenLimit` consumes an abstract token counter `tok`
(in the source: `enc.encode(lineWithNewline).length` for a tiktoken encoder
`enc`; deterministic for identical input, per the spec's tokenizer contract).
`maxTokens` is an `Int` so that the `maxTokens <= 0` guard is modelled
exactly. -/

/-- Loop body of `splitByTokenLimit` (source lines 52-93 of `tokenizer.ts`):
state is the accumulated `batches`, the `currentBatch` and the
`currentTokenCount`; each line is charged `tok (line ++ "\n")` tokens. -/
def splitLoop (tok : String → Nat) (maxTokens : Int) :
    List String → List (List String) → List String → Nat → List (List String)
  | [], batches, currentBatch, _ =>
      if currentBatch.length > 0 then batches ++ [currentBatch] else batches
  | line :: rest, batches, currentBatch, currentTokenCount =>
      let lineTokens := tok (line ++ "\n")
      if (lineTokens : Int) > maxTokens then
        splitLoop tok maxTokens rest
          ((if currentBatch.length > 0 then batches ++ [currentBatch] else batches) ++ [[line]])
          [] 0
      else if (currentTokenCount : Int) + (lineTokens : Int) > maxTokens ∧
          currentBatch.length > 0 then
        splitLoop tok maxTokens rest (batches ++ [currentBatch]) [line] lineTokens
      else
        splitLoop tok maxTokens rest batches (currentBatch ++ [line])
          (currentTokenCount + lineTokens)

/-- `splitByTokenLimit` from `src/tokenizer.ts`: returns `[]` for empty input,
throws (`Except.error`) when `maxTokens <= 0`, otherwise runs the
accumulation loop starting from an empty batch. -/
def splitByTokenLimit (tok : String → Nat) (lines : List String) (maxTokens : Int) :
    Except String (List (List String)) :=
  if lines = [] then .ok []
  else if maxTokens ≤ 0 then .error "maxTokens must be a positive number"
  else .ok (splitLoop tok maxTokens lines [] [] 0)

/-- A concrete token counter used by witnesses: one token per character. -/
def lengthTok (s : String) : Nat := s.length

/-- The flattening invariant of the split loop: the lines already flushed to
`batches`, the pending `currentBatch` and the unprocessed input together are
the whole input, in order. -/
theorem splitLoop_flatten (tok : String → Nat) (maxTokens : Int) :
    ∀ (l : List String) (batches : List (List String)) (cur : List String) (cnt : Nat),
      (splitLoop tok maxTokens l batches cur cnt).flatten = batches.flatten ++ cur ++ l
  | [], batches, cur, cnt => by
      simp only [splitLoop]
      split
      · simp
      · have : cur = [] := by
          rcases cur with _ | ⟨a, l⟩
          · rfl
          · simp at *
        simp [this]
  | line :: rest, batches, cur, cnt => by
      simp only [splitLoop]
      split
      · rw [splitLoop_flatten]
        split
        · simp
        · rename_i h
          have : cur = [] := by
            rcases cur with _ | ⟨a, l⟩
            · rfl
            · simp at h
          simp [this]
      · split
        · rw [splitLoop_flatten]
          simp
        · rw [splitLoop_flatten]
          simp

/-- Every batch emitted by the split loop is non-empty, provided the batches
accumulated so far are. -/
theorem splitLoop_ne_nil (tok : String → Nat) (maxTokens : Int) :
    ∀ (l : List String) (batches : List (List String)) (cur : List String) (cnt : Nat),
      (∀ b ∈ batches, b ≠ []) →
      ∀ b ∈ splitLoop tok maxTokens l batches cur cnt, b ≠ []
  | [], batches, cur, cnt => by
      intro hB b hb
      simp only [splitLoop] at hb
      split at hb
      · rcases List.mem_append.mp hb with h | h
        · exact hB b h
        · rename_i hlen
          rcases List.mem_singleton.mp h with rfl
          intro hnil
          rw [hnil] at hlen
          simp at hlen
      · exact hB b hb
  | line :: rest, batches, cur, cnt => by
      intro hB b hb
      simp only [splitLoop] at hb
      split at hb
      · refine splitLoop_ne_nil tok maxTokens rest _ [] 0 ?_ b hb
        intro b' hb'
        rcases List.mem_append.mp hb' with h | h
        · split at h
          · rcases List.mem_append.mp h with h' | h'
            · exact hB b' h'
            · rename_i hlen
              rcases List.mem_singleton.mp h' with rfl
              intro hnil
              rw [hnil] at hlen
              simp at hlen
          · exact hB b' h
        · rcases List.mem_singleton.mp h with rfl
          simp
      · split at hb
        · refine splitLoop_ne_nil tok maxTokens rest _ [line] _ ?_ b hb
          intro b' hb'
          rcases List.mem_append.mp hb' with h | h
          · exact hB b' h
          · rename_i hcond
            rcases List.mem_singleton.mp h with rfl
            intro hnil
            rw [hnil] at hcond
            simp at hcond
        · exact splitLoop_ne_nil tok maxTokens rest batches (cur ++ [line]) _ hB b hb

/-- C2: for every non-empty line array and positive `maxTokens`,
`splitByTokenLimit` succeeds, concatenating its batches in order reproduces
the input line array exactly (same lines, same order, no loss or
duplication), and every batch is a non-empty list of whole input lines (the
embedding keeps lines atomic, so no batch can contain a partial line). -/
theorem splitByTokenLimit_flatten (tok : String → Nat) (lines : List String)
    (maxTokens : Int) (hne : lines ≠ []) (hpos : 0 < maxTokens) :
    ∃ bs, splitByTokenLimit tok lines maxTokens = .ok bs ∧
      bs.flatten = lines ∧ ∀ b ∈ bs, b ≠ [] := by
  refine ⟨splitLoop tok maxTokens lines [] [] 0, ?_, ?_, ?_⟩
  · rw [splitByTokenLimit, if_neg hne, if_neg (by omega)]
  · rw [splitLoop_flatten]
    simp
  · exact splitLoop_ne_nil tok maxTokens lines [] [] 0 (by simp)

/-- Witness for C2 at a concrete input: two lines, budget 2 tokens. -/
theorem splitByTokenLimit_flatten_witness :
    (["a", "bb"] : List String) ≠ [] ∧ (0 : Int) < 2 ∧
      ∃ bs, splitByTokenLimit lengthTok ["a", "bb"] 2 = .ok bs ∧
        bs.flatten = ["a", "bb"] ∧ ∀ b ∈ bs, b ≠ [] :=
  ⟨by decide, by decide,
    splitByTokenLimit_flatten lengthTok ["a", "bb"] 2 (by decide) (by decide)⟩

/-- Counterexample to C4 as stated: the empty-input guard precedes the
`maxTokens` guard (source lines 44-50 of `tokenizer.ts`), so the empty array
with `maxTokens = 0` returns `[]` instead of throwing. -/
theorem splitByTokenLimit_empty_counterexample :
    splitByTokenLimit lengthTok [] 0 = .ok [] ∧
      splitByTokenLimit lengthTok [] 0 ≠ .error "maxTokens must be a positive number" := by
  constructor
  · rfl
  · intro h
    rw [show splitByTokenLimit lengthTok [] 0 = .ok [] from rfl] at h
    exact Except.noConfusion h

/-- C4 (amended): for every NON-EMPTY input line array and `maxTokens <= 0`,
`splitByTokenLimit` throws `maxTokens must be a positive number`; the empty
array short-circuits to `[]` before the guard is consulted. -/
theorem splitByTokenLimit_nonpos_error (tok : String → Nat) (lines : List String)
    (maxTokens : Int) (hne : lines ≠ []) (hnp : maxTokens ≤ 0) :
    splitByTokenLimit tok lines maxTokens = .error "maxTokens must be a positive number" := by
  rw [splitByTokenLimit, if_neg hne, if_pos hnp]

/-- Witness for the amended C4 at a concrete input. -/
theorem splitByTokenLimit_nonpos_error_witness :
    (["a"] : List String) ≠ [] ∧ (0 : Int) ≤ 0 ∧
      splitByTokenLimit lengthTok ["a"] 0 = .error "maxTokens must be a positive number" :=
  ⟨by decide, by decide, splitByTokenLimit_nonpos_error lengthTok ["a"] 0 (by decide) (by decide)⟩

/-! ## Batch creation (`src/jsvmpDetector.ts`, `extractLineNumber` / `createBatches`)

`countTokens` (used for `BatchInfo.tokenCount`) is the same abstract tiktoken
capability, so it is modelled by the same `tok` parameter. -/

/-- JavaScript `String.prototype.trim`: strip leading and trailing
whitespace, here on a character list. -/
def jsTrim (cs : List Char) : List Char :=
  ((cs.dropWhile Char.isWhitespace).reverse.dropWhile Char.isWhitespace).reverse

/-- `extractLineNumber` (source lines 760-763): take the first five characters
of a formatted line (`substring(0, 5)`), trim, and parse with
`parseInt(..., 10)`, which reads the leading run of decimal digits and stops
at the first non-digit. `parseInt` returning `NaN` (no leading digit) is
modelled as `0`; the claims only use this function under hypotheses that make
the parse succeed. -/
def extractLineNumber (formattedLine : String) : Nat :=
  let trimmed := jsTrim (formattedLine.data.take 5)
  let digits := trimmed.takeWhile Char.isDigit
  if digits.isEmpty then 0
  else digits.foldl (fun n c => n * 10 + (c.toNat - 48)) 0

/-- `BatchInfo` (source lines 572-577). -/
structure BatchInfo where
  startLine : Nat
  endLine : Nat
  content : String
  tokenCount : Nat
deriving DecidableEq, Repr

/-- Body of the `for (const batchLines of lineBatches)` loop of
`createBatches` (source lines 786-805): start/end line numbers are read off
the first and last formatted lines of the batch. -/
def mkBatchInfo (tok : String → Nat) (batchLines : List String) : BatchInfo :=
  { startLine := extractLineNumber (batchLines.headD "")
    endLine := extractLineNumber (batchLines.getLastD "")
    content := String.intercalate "\n" batchLines
    tokenCount := tok (String.intercalate "\n" batchLines) }

/-- `createBatches` (source lines 773-808): empty input yields `[]`;
otherwise the lines are split by `splitByTokenLimit` (whose `maxTokens <= 0`
exception propagates), empty line batches are skipped (`continue`), and each
remaining batch is turned into a `BatchInfo`. -/
def createBatches (tok : String → Nat) (formattedLines : List String)
    (maxTokensPerBatch : Int) : Except String (List BatchInfo) :=
  if formattedLines = [] then .ok []
  else
    match splitByTokenLimit tok formattedLines maxTokensPerBatch with
    | .error e => .error e
    | .ok lineBatches =>
        .ok ((lineBatches.filter (fun bl => !bl.isEmpty)).map (mkBatchInfo tok))

/-- The lines carry embedded line numbers `base+1, base+2, ...` in order.
This is the structural counterpart of the claim's hypothesis that the
embedded line numbers are 1-based and sequential (`base = 0`). -/
def numberedFrom (f : String → Nat) : Nat → List String → Prop
  | _, [] => True
  | base, x :: xs => f x = base + 1 ∧ numberedFrom f (base + 1) xs

theorem numberedFrom_of_getElem (f : String → Nat) :
    ∀ (l : List String) (base : Nat),
      (∀ i (h : i < l.length), f (l.get ⟨i, h⟩) = base + i + 1) →
      numberedFrom f base l
  | [], _, _ => trivial
  | x :: xs, base, h => by
      refine ⟨by simpa using h 0 (by simp), ?_⟩
      refine numberedFrom_of_getElem f xs (base + 1) ?_
      intro i hi
      have := h (i + 1) (by simpa using Nat.succ_lt_succ hi)
      simpa [Nat.add_assoc, Nat.add_comm, Nat.add_left_comm] using this

theorem numberedFrom_append (f : String → Nat) :
    ∀ (xs ys : List String) (base : Nat),
      numberedFrom f base (xs ++ ys) ↔
        numberedFrom f base xs ∧ numberedFrom f (base + xs.length) ys
  | [], ys, base => by simp [numberedFrom]
  | x :: xs, ys, base => by
      show (f x = base + 1 ∧ numberedFrom f (base + 1) (xs ++ ys)) ↔ _
      rw [numberedFrom_append f xs ys (base + 1)]
      show _ ↔ (f x = base + 1 ∧ numberedFrom f (base + 1) xs) ∧
        numberedFrom f (base + (xs.length + 1)) ys
      have harith : base + (xs.length + 1) = base + 1 + xs.length := by omega
      constructor
      · rintro ⟨h1, h2, h3⟩
        refine ⟨⟨h1, h2⟩, ?_⟩
        rw [harith]
        exact h3
      · rintro ⟨⟨h1, h2⟩, h3⟩
        refine ⟨h1, h2, ?_⟩
        rw [harith] at h3
        exact h3

theorem numberedFrom_headD (f : String → Nat) (l : List String) (base : Nat)
    (hne : l ≠ []) (h : numberedFrom f base l) : f (l.headD "") = base + 1 := by
  rcases l with _ | ⟨x, xs⟩
  · exact absurd rfl hne
  · exact h.1

theorem numberedFrom_getLastD (f : String → Nat) :
    ∀ (l : List String) (base : Nat), l ≠ [] → numberedFrom f base l →
      f (l.getLastD "") = base + l.length
  | [], _, hne, _ => absurd rfl hne
  | [x], base, _, h => by simpa using h.1
  | x :: y :: xs, base, _, h => by
      have := numberedFrom_getLastD f (y :: xs) (base + 1) (by simp) h.2
      simpa [Nat.add_assoc, Nat.add_comm, Nat.add_left_comm] using this

/-- For a partition into non-empty pieces of a sequentially numbered line
list, the embedded number at the head of each piece is one more than the
embedded number at the end of the previous piece. -/
theorem numberedFrom_partition_consecutive (f : String → Nat) :
    ∀ (lbs : List (List String)) (base : Nat),
      (∀ b ∈ lbs, b ≠ []) → numberedFrom f base lbs.flatten →
      ∀ j, j + 1 < lbs.length →
        f ((lbs.getD (j + 1) []).headD "") = f ((lbs.getD j []).getLastD "") + 1
  | [], _, _, _ => by intro j hj; simp at hj
  | b :: rest, base, hne, hnum => by
      intro j hj
      have hb : b ≠ [] := hne b (by simp)
      have hsplit := (numberedFrom_append f b rest.flatten base).mp (by simpa using hnum)
      rcases j with _ | j'
      · rcases rest with _ | ⟨b2, rest2⟩
        · simp at hj
        · have hb2 : b2 ≠ [] := hne b2 (by simp)
          have h2 := (numberedFrom_append f b2 rest2.flatten (base + b.length)).mp
            (by simpa using hsplit.2)
          have hhead := numberedFrom_headD f b2 (base + b.length) hb2 h2.1
          have hlast := numberedFrom_getLastD f b base hb hsplit.1
          simp only [List.getD_cons_succ, List.getD_cons_zero]
          omega
      · have := numberedFrom_partition_consecutive f rest (base + b.length)
          (fun b' hb' => hne b' (by simp [hb'])) hsplit.2 j' (by simpa using hj)
        simpa using this

/-- C5: for every batch list produced by `createBatches` from a formatted
line sequence whose embedded line numbers are 1-based and sequential, the
batches are the images of a partition of the input lines under
`mkBatchInfo` — so each batch's `startLine`/`endLine` is (by the definition
of `mkBatchInfo`) the line number embedded in its first/last formatted
line — and every pair of consecutive batches satisfies
`next.startLine = prev.endLine + 1`. -/
theorem createBatches_line_ranges (tok : String → Nat) (lines : List String)
    (mt : Int) (bs : List BatchInfo) (hok : createBatches tok lines mt = .ok bs)
    (hnum : ∀ i (h : i < lines.length), extractLineNumber (lines.get ⟨i, h⟩) = i + 1) :
    (∃ lbs : List (List String), lbs.flatten = lines ∧ (∀ b ∈ lbs, b ≠ []) ∧
        bs = lbs.map (mkBatchInfo tok)) ∧
    ∀ j, j + 1 < bs.length →
      (bs.getD (j + 1) ⟨0, 0, "", 0⟩).startLine = (bs.getD j ⟨0, 0, "", 0⟩).endLine + 1 := by
  by_cases hls : lines = []
  · subst hls
    unfold createBatches at hok
    rw [if_pos rfl] at hok
    have hbs : bs = ([] : List BatchInfo) := by
      cases hok
      rfl
    subst hbs
    exact ⟨⟨[], by simp, by simp, by simp⟩, fun j hj => by simp at hj⟩
  · unfold createBatches at hok
    rw [if_neg hls] at hok
    by_cases hmt : mt ≤ 0
    · rw [splitByTokenLimit_nonpos_error tok lines mt hls hmt] at hok
      exact Except.noConfusion hok
    · obtain ⟨lbs0, hsplit, hflat, hne'⟩ :=
        splitByTokenLimit_flatten tok lines mt hls (by omega)
      rw [hsplit] at hok
      have hfilter : lbs0.filter (fun bl => !bl.isEmpty) = lbs0 := by
        refine List.filter_eq_self.mpr ?_
        intro b hb
        simpa using hne' b hb
      have hok2 :
          Except.ok (List.map (mkBatchInfo tok) (List.filter (fun bl => !bl.isEmpty) lbs0)) =
            (Except.ok bs : Except String (List BatchInfo)) := hok
      rw [hfilter] at hok2
      have hbs : bs = lbs0.map (mkBatchInfo tok) := by
        cases hok2
        rfl
      have hnumbered : numberedFrom extractLineNumber 0 lbs0.flatten := by
        rw [hflat]
        refine numberedFrom_of_getElem extractLineNumber lines 0 ?_
        intro i h
        rw [hnum i h]
        omega
      have hcons := numberedFrom_partition_consecutive extractLineNumber lbs0 0 hne' hnumbered
      subst hbs
      refine ⟨⟨lbs0, hflat, hne', rfl⟩, ?_⟩
      intro j hj
      have hj1 : j + 1 < lbs0.length := by simpa using hj
      have hj0 : j < lbs0.length := by omega
      have hm1 : j + 1 < (lbs0.map (mkBatchInfo tok)).length := by simpa using hj1
      have hm0 : j < (lbs0.map (mkBatchInfo tok)).length := by simpa using hj0
      have e1 : (lbs0.map (mkBatchInfo tok)).getD (j + 1) ⟨0, 0, "", 0⟩ =
          mkBatchInfo tok (lbs0.getD (j + 1) []) := by
        rw [List.getD_eq_getElem _ _ hm1, List.getD_eq_getElem _ _ hj1]
        simp
      have e0 : (lbs0.map (mkBatchInfo tok)).getD j ⟨0, 0, "", 0⟩ =
          mkBatchInfo tok (lbs0.getD j []) := by
        rw [List.getD_eq_getElem _ _ hm0, List.getD_eq_getElem _ _ hj0]
        simp
      rw [e1, e0]
      simp only [mkBatchInfo]
      exact hcons j hj1

/-- Witness for C5 at a concrete input: three formatted lines numbered 1-3,
split into three singleton batches under a 10-token budget. -/
theorem createBatches_line_ranges_witness :
    createBatches lengthTok ["    1 a", "    2 bb", "    3 c"] 10 =
      .ok [⟨1, 1, "    1 a", 7⟩, ⟨2, 2, "    2 bb", 8⟩, ⟨3, 3, "    3 c", 7⟩] ∧
    ((∃ lbs : List (List String),
        lbs.flatten = ["    1 a", "    2 bb", "    3 c"] ∧ (∀ b ∈ lbs, b ≠ []) ∧
        [⟨1, 1, "    1 a", 7⟩, ⟨2, 2, "    2 bb", 8⟩, ⟨3, 3, "    3 c", 7⟩] =
          lbs.map (mkBatchInfo lengthTok)) ∧
      ∀ j, j + 1 < ([⟨1, 1, "    1 a", 7⟩, ⟨2, 2, "    2 bb", 8⟩,
          ⟨3, 3, "    3 c", 7⟩] : List BatchInfo).length →
        (([⟨1, 1, "    1 a", 7⟩, ⟨2, 2, "    2 bb", 8⟩,
            ⟨3, 3, "    3 c", 7⟩] : List BatchInfo).getD (j + 1) ⟨0, 0, "", 0⟩).startLine =
          (([⟨1, 1, "    1 a", 7⟩, ⟨2, 2, "    2 bb", 8⟩,
            ⟨3, 3, "    3 c", 7⟩] : List BatchInfo).getD j ⟨0, 0, "", 0⟩).endLine + 1) :=
  ⟨by rfl,
    createBatches_line_ranges lengthTok ["    1 a", "    2 bb", "    3 c"] 10
      [⟨1, 1, "    1 a", 7⟩, ⟨2, 2, "    2 bb", 8⟩, ⟨3, 3, "    3 c", 7⟩]
      (by rfl) (by decide)⟩

/-! ## Detection data model (`src/jsvmpDetector.ts`, interfaces)

JavaScript runtime numbers are modelled as `Rat` (every JSON numeral the
parser can meet is a finite decimal); `string | null` fields become
`Option String`, optional interface fields become `Option` fields. The
`confidence` of a validated region is stored as the closed enumeration; the
`type` is stored as the validated string (at runtime it is a string drawn
from the closed `DetectionType` union). -/

/-- The `ConfidenceLevel` union (source line 446). -/
inductive ConfidenceLevel where
  | ultra_high
  | high
  | medium
  | low
deriving DecidableEq, Repr

/-- The `confidenceOrder` record used by `mergeDetectionResults`
(source lines 1300-1305). -/
def confidenceOrder : ConfidenceLevel → Nat
  | .ultra_high => 4
  | .high => 3
  | .medium => 2
  | .low => 1

/-- `VMComponentVariable` (source lines 451-458). -/
structure VMComponentVariable where
  variable_name : Option String
  line_number : Option Rat
  source_line : Option Rat
  source_column : Option Rat
  confidence : ConfidenceLevel
  reasoning : String
deriving DecidableEq, Repr

/-- `LoopEntryInjection` (source lines 464-469). -/
structure LoopEntryInjection where
  line_number : Rat
  source_line : Option Rat
  source_column : Option Rat
  description : String
deriving DecidableEq, Repr

/-- `BreakpointInjection` (source lines 474-480). -/
structure BreakpointInjection where
  line_number : Rat
  source_line : Option Rat
  source_column : Option Rat
  opcode_read_pattern : Option String
  description : String
deriving DecidableEq, Repr

/-- `VMComponents` (source lines 485-492). -/
structure VMComponents where
  instruction_pointer : VMComponentVariable
  stack_pointer : VMComponentVariable
  virtual_stack : VMComponentVariable
  bytecode_array : VMComponentVariable
  loop_entry : Option LoopEntryInjection
  breakpoint : Option BreakpointInjection
deriving DecidableEq, Repr

/-- `GlobalBytecodeInfo` restricted to the fields `parseGlobalBytecode`
populates (source lines 497-507 and 958-971). -/
structure GlobalBytecodeInfo where
  variable_name : Option String
  definition_line : Option Rat
  source_line : Option Rat
  source_column : Option Rat
  description : String
deriving DecidableEq, Repr

/-- `DebuggingEntryPoint` (source lines 512-515). -/
structure DebuggingEntryPoint where
  line_number : Rat
  description : String
deriving DecidableEq, Repr

/-- `DetectionRegion` (source lines 520-528); the field `end` is a Lean
keyword, hence the guillemets. -/
structure DetectionRegion where
  start : Rat
  «end» : Rat
  type : String
  confidence : ConfidenceLevel
  description : String
  vm_components : Option VMComponents := none
  debugging_entry_point : Option DebuggingEntryPoint := none
deriving DecidableEq, Repr

/-- `DetectionSummary` (source lines 533-536). -/
structure DetectionSummary where
  overall_description : String
  debugging_recommendation : String
deriving DecidableEq, Repr

/-- The `string | DetectionSummary` union used for `DetectionResult.summary`
(source line 542). -/
inductive SummaryValue where
  | strSum (s : String)
  | objSum (d : DetectionSummary)
deriving DecidableEq, Repr

/-- `DetectionResult` (source lines 541-545). -/
structure DetectionResult where
  summary : SummaryValue
  global_bytecode : Option GlobalBytecodeInfo := none
  regions : List DetectionRegion
deriving DecidableEq, Repr

/-! ## JSON values

`parseDetectionResult` first runs `JSON.parse` (an opaque platform builtin,
modelled as an abstract `String → Except String Json` parameter) and then
validates the resulting value; the validation logic is embedded over this
`Json` type. -/

/-- A parsed JSON value. Objects keep their fields as an association list. -/
inductive Json where
  | null
  | bool (b : Bool)
  | num (n : Rat)
  | str (s : String)
  | arr (elems : List Json)
  | obj (fields : List (String × Json))

/-- Property lookup on an object's field list; later bindings shadow earlier
ones, as in a JavaScript object produced by `JSON.parse` with duplicate
keys. Returns `none` for an absent property (JavaScript `undefined`). -/
def jget : List (String × Json) → String → Option Json
  | [], _ => none
  | (k, v) :: rest, key =>
      match jget rest key with
      | some x => some x
      | none => if k = key then some v else none

/-- The JavaScript `??` (nullish coalescing) on property accesses: fall
through to the second operand when the first is absent (`undefined`) or
`null`. -/
def coalesce (a b : Option Json) : Option Json :=
  match a with
  | none => b
  | some .null => b
  | some v => some v

/-- Values passing `typeof x === "object" && x !== null`, exposed as a field
list: objects expose their fields; arrays pass the `typeof` test but have no
string-keyed properties, so they expose an empty field list; everything else
(including `null`) is rejected. -/
def jfields? : Json → Option (List (String × Json))
  | .obj fs => some fs
  | .arr _ => some []
  | _ => none

/-! ## Detection-result parser/validator (`parseDetectionResult`, source
lines 813-841 and 846-1098) -/

/-- `VALID_DETECTION_TYPES` (source lines 813-817). -/
def VALID_DETECTION_TYPES : List String :=
  ["If-Else Dispatcher", "Switch Dispatcher", "Instruction Array"]

/-- `VALID_CONFIDENCE_LEVELS` (source lines 822-827). -/
def VALID_CONFIDENCE_LEVELS : List String :=
  ["ultra_high", "high", "medium", "low"]

/-- Conversion of a validated confidence string (a member of
`VALID_CONFIDENCE_LEVELS`) to the enumeration; only applied under that
validation, so the `.low` fallback is never reached. -/
def confidenceOfString : String → ConfidenceLevel
  | "ultra_high" => .ultra_high
  | "high" => .high
  | "medium" => .medium
  | _ => .low

/-- `typeof x === "string" ? x : null` on a property access. -/
def jstr? : Option Json → Option String
  | some (.str s) => some s
  | _ => none

/-- `typeof x === "number" ? x : null` on a property access. -/
def jnum? : Option Json → Option Rat
  | some (.num n) => some n
  | _ => none

/-- The all-null fallback `VMComponentVariable` used when a role was not
identified (source lines 924-927). -/
def defaultComponent : VMComponentVariable :=
  { variable_name := none, line_number := none, source_line := none,
    source_column := none, confidence := .low, reasoning := "" }

/-- `parseVMComponentVariable` (source lines 846-871): returns `null` unless
the field is an object carrying a recognized `confidence` string; all other
sub-fields degrade to `null` / `""`. -/
def parseVMComponentVariable (fs : List (String × Json)) (fieldName : String) :
    Option VMComponentVariable :=
  match jget fs fieldName with
  | none => none
  | some comp =>
      match jfields? comp with
      | none => none
      | some cfs =>
          match jget cfs "confidence" with
          | some (.str c) =>
              if c ∈ VALID_CONFIDENCE_LEVELS then
                some { variable_name := jstr? (jget cfs "variable_name"),
                       line_number := jnum? (jget cfs "line_number"),
                       source_line := jnum? (jget cfs "source_line"),
                       source_column := jnum? (jget cfs "source_column"),
                       confidence := confidenceOfString c,
                       reasoning := (jstr? (jget cfs "reasoning")).getD "" }
              else none
          | _ => none

/-- `parseVMComponents` (source lines 876-931): parses the four roles and the
two injection points; omitted entirely unless at least one role was
identified. -/
def parseVMComponents (fs : List (String × Json)) : Option VMComponents :=
  match jget fs "vm_components" with
  | none => none
  | some vc =>
      match jfields? vc with
      | none => none
      | some vfs =>
          let ip := parseVMComponentVariable vfs "instruction_pointer"
          let sp := parseVMComponentVariable vfs "stack_pointer"
          let stack := parseVMComponentVariable vfs "virtual_stack"
          let bytecode := parseVMComponentVariable vfs "bytecode_array"
          let loopEntry : Option LoopEntryInjection :=
            match jget vfs "loop_entry" with
            | none => none
            | some le =>
                match jfields? le with
                | none => none
                | some lfs =>
                    match jget lfs "line_number" with
                    | some (.num n) =>
                        some { line_number := n,
                               source_line := jnum? (jget lfs "source_line"),
                               source_column := jnum? (jget lfs "source_column"),
                               description := (jstr? (jget lfs "description")).getD "" }
                    | _ => none
          let breakpointInj : Option BreakpointInjection :=
            match jget vfs "breakpoint" with
            | none => none
            | some bp =>
                match jfields? bp with
                | none => none
                | some bfs =>
                    match jget bfs "line_number" with
                    | some (.num n) =>
                        some { line_number := n,
                               source_line := jnum? (jget bfs "source_line"),
                               source_column := jnum? (jget bfs "source_column"),
                               opcode_read_pattern := jstr? (jget bfs "opcode_read_pattern"),
                               description := (jstr? (jget bfs "description")).getD "" }
                    | _ => none
          if ip.isNone && sp.isNone && stack.isNone && bytecode.isNone then none
          else
            some { instruction_pointer := ip.getD defaultComponent,
                   stack_pointer := sp.getD defaultComponent,
                   virtual_stack := stack.getD defaultComponent,
                   bytecode_array := bytecode.getD defaultComponent,
                   loop_entry := loopEntry,
                   breakpoint := breakpointInj }

/-- `parseDebuggingEntryPoint` (source lines 936-953). -/
def parseDebuggingEntryPoint (fs : List (String × Json)) : Option DebuggingEntryPoint :=
  match jget fs "debugging_entry_point" with
  | none => none
  | some ep =>
      match jfields? ep with
      | none => none
      | some efs =>
          match jget efs "line_number" with
          | some (.num n) =>
              some { line_number := n,
                     description := (jstr? (jget efs "description")).getD "" }
          | _ => none

/-- `parseGlobalBytecode` (source lines 958-971). -/
def parseGlobalBytecode (fs : List (String × Json)) : Option GlobalBytecodeInfo :=
  match jget fs "global_bytecode" with
  | none => none
  | some gb =>
      match jfields? gb with
      | none => none
      | some gfs =>
          some { variable_name := jstr? (jget gfs "variable_name"),
                 definition_line := jnum? (jget gfs "definition_line"),
                 source_line := jnum? (jget gfs "source_line"),
                 source_column := jnum? (jget gfs "source_column"),
                 description := (jstr? (jget gfs "description")).getD "" }

/-- Summary validation (source lines 1004-1018): a string is accepted as is;
an object must carry string `overall_description` and
`debugging_recommendation`; anything else fails. -/
def parseSummary (v : Option Json) : Except String SummaryValue :=
  match v with
  | some (.str s) => .ok (.strSum s)
  | some (.obj sfs) =>
      match jget sfs "overall_description", jget sfs "debugging_recommendation" with
      | some (.str od), some (.str dr) => .ok (.objSum ⟨od, dr⟩)
      | _, _ => .error "LLM 响应格式无效，summary 对象缺少必需字段"
  | some (.arr _) => .error "LLM 响应格式无效，summary 对象缺少必需字段"
  | _ => .error "LLM 响应格式无效，缺少必需字段: summary"

/-- Validation of one region after its numeric bounds were extracted (source
lines 1048-1087): `type`, `confidence`, `description` must be strings, then
the two enumerations are enforced, then the optional enrichments are parsed
permissively. -/
def parseRegionFields (i : Nat) (fs : List (String × Json)) (startLine endLine : Rat) :
    Except String DetectionRegion :=
  match jget fs "type" with
  | some (.str ty) =>
      match jget fs "confidence" with
      | some (.str conf) =>
          match jget fs "description" with
          | some (.str desc) =>
              if ty ∈ VALID_DETECTION_TYPES then
                if conf ∈ VALID_CONFIDENCE_LEVELS then
                  .ok { start := startLine, «end» := endLine, type := ty,
                        confidence := confidenceOfString conf, description := desc,
                        vm_components := parseVMComponents fs,
                        debugging_entry_point := parseDebuggingEntryPoint fs }
                else
                  .error ("LLM 响应格式无效，regions[" ++ toString i ++
                    "].confidence 值无效: \"" ++ conf ++ "\". 有效值: " ++
                    String.intercalate ", " VALID_CONFIDENCE_LEVELS)
              else
                .error ("LLM 响应格式无效，regions[" ++ toString i ++
                  "].type 值无效: \"" ++ ty ++ "\". 有效值: " ++
                  String.intercalate ", " VALID_DETECTION_TYPES)
          | _ => .error ("LLM 响应格式无效，regions[" ++ toString i ++ "] 缺少必需字段: description")
      | _ => .error ("LLM 响应格式无效，regions[" ++ toString i ++ "] 缺少必需字段: confidence")
  | _ => .error ("LLM 响应格式无效，regions[" ++ toString i ++ "] 缺少必需字段: type")

/-- Validation of the `i`-th region (source lines 1028-1087): the region must
pass `typeof region === "object" && region !== null`, its bounds are read
under the current names with legacy fallback
(`region.start_line ?? region.start`, `region.end_line ?? region.end`) and
must be numbers. -/
def parseRegion (i : Nat) (region : Json) : Except String DetectionRegion :=
  match jfields? region with
  | none => .error ("LLM 响应格式无效，regions[" ++ toString i ++ "] 不是对象")
  | some fs =>
      match coalesce (jget fs "start_line") (jget fs "start") with
      | some (.num startLine) =>
          match coalesce (jget fs "end_line") (jget fs "end") with
          | some (.num endLine) => parseRegionFields i fs startLine endLine
          | _ => .error ("LLM 响应格式无效，regions[" ++ toString i ++
              "] 缺少必需字段: end_line 或 end")
      | _ => .error ("LLM 响应格式无效，regions[" ++ toString i ++
          "] 缺少必需字段: start_line 或 start")

/-- The `for (let i = 0; ...)` loop over `obj.regions` (source lines
1027-1088): the first failing region aborts the parse. -/
def parseRegions (i : Nat) : List Json → Except String (List DetectionRegion)
  | [] => .ok []
  | region :: rest =>
      match parseRegion i region with
      | .error e => .error e
      | .ok r =>
          match parseRegions (i + 1) rest with
          | .error e => .error e
          | .ok rs => .ok (r :: rs)

/-- Validation of a parsed LLM response (source lines 996-1097, the body of
`parseDetectionResult` after `JSON.parse`). -/
def parseDetectionResultJson (parsed : Json) : Except String DetectionResult :=
  match jfields? parsed with
  | none => .error "LLM 响应格式无效，期望对象类型"
  | some fs =>
      match parseSummary (jget fs "summary") with
      | .error e => .error e
      | .ok summary =>
          match jget fs "regions" with
          | some (.arr regionsArr) =>
              match parseRegions 0 regionsArr with
              | .error e => .error e
              | .ok validatedRegions =>
                  .ok { summary := summary,
                        global_bytecode := parseGlobalBytecode fs,
                        regions := validatedRegions }
          | _ => .error "LLM 响应格式无效，缺少必需字段: regions"

/-- `parseDetectionResult` (source lines 987-1098): `JSON.parse` — an opaque
platform builtin, passed in as `jparse` — followed by validation; a
`JSON.parse` exception is rewrapped with the 无法解析 prefix. -/
def parseDetectionResult (jparse : String → Except String Json) (jsonString : String) :
    Except String DetectionResult :=
  match jparse jsonString with
  | .error e => .error ("无法解析 LLM 响应: " ++ e)
  | .ok parsed => parseDetectionResultJson parsed

theorem jget_cons (k key : String) (v : Json) (fs : List (String × Json)) :
    jget ((k, v) :: fs) key =
      match jget fs key with
      | some x => some x
      | none => if k = key then some v else none := rfl

theorem jget_cons_ne (k key : String) (v : Json) (fs : List (String × Json))
    (h : k ≠ key) : jget ((k, v) :: fs) key = jget fs key := by
  rw [jget_cons]
  cases hx : jget fs key <;> simp [h]

theorem jget_cons_self (k : String) (v : Json) (fs : List (String × Json))
    (h : jget fs k = none) : jget ((k, v) :: fs) k = some v := by
  rw [jget_cons, h]
  simp

theorem parseVMComponents_congr (fs1 fs2 : List (String × Json))
    (h : jget fs1 "vm_components" = jget fs2 "vm_components") :
    parseVMComponents fs1 = parseVMComponents fs2 := by
  unfold parseVMComponents
  rw [h]

theorem parseDebuggingEntryPoint_congr (fs1 fs2 : List (String × Json))
    (h : jget fs1 "debugging_entry_point" = jget fs2 "debugging_entry_point") :
    parseDebuggingEntryPoint fs1 = parseDebuggingEntryPoint fs2 := by
  unfold parseDebuggingEntryPoint
  rw [h]

/-- The validation of a region depends on its field list only through the
five non-bound keys once the bounds have been extracted. -/
theorem parseRegionFields_congr (i : Nat) (fs1 fs2 : List (String × Json)) (s e : Rat)
    (hty : jget fs1 "type" = jget fs2 "type")
    (hc : jget fs1 "confidence" = jget fs2 "confidence")
    (hd : jget fs1 "description" = jget fs2 "description")
    (hvm : jget fs1 "vm_components" = jget fs2 "vm_components")
    (hde : jget fs1 "debugging_entry_point" = jget fs2 "debugging_entry_point") :
    parseRegionFields i fs1 s e = parseRegionFields i fs2 s e := by
  unfold parseRegionFields
  rw [hty, hc, hd, parseVMComponents_congr fs1 fs2 hvm,
    parseDebuggingEntryPoint_congr fs1 fs2 hde]

theorem parseRegion_reduce (i : Nat) (fs : List (String × Json)) (s e : Rat)
    (hs : coalesce (jget fs "start_line") (jget fs "start") = some (.num s))
    (he : coalesce (jget fs "end_line") (jget fs "end") = some (.num e)) :
    parseRegion i (.obj fs) = parseRegionFields i fs s e := by
  unfold parseRegion
  simp only [jfields?]
  rw [hs, he]

/-- Skipping two leading fields whose keys both differ from the key looked
up. -/
theorem jget_cons2_ne (k1 k2 key : String) (v1 v2 : Json) (fs : List (String × Json))
    (hk1 : k1 ≠ key) (hk2 : k2 ≠ key) :
    jget ((k1, v1) :: (k2, v2) :: fs) key = jget fs key := by
  rw [jget_cons_ne _ _ _ _ hk1, jget_cons_ne _ _ _ _ hk2]

/-- C6: for every region object (arbitrary remaining fields `rest` that do
not themselves bind the four bound keys), `parseDetectionResult`'s region
validation produces the same result whether the bounds are given under the
legacy names `start`/`end` or the current names `start_line`/`end_line`; and
when both spellings are present, the current `start_line`/`end_line` values
are the ones used (the legacy values are ignored entirely). -/
theorem parseRegion_legacy_field_names (i : Nat) (s e : Rat) (rest : List (String × Json))
    (h1 : jget rest "start_line" = none) (h2 : jget rest "end_line" = none)
    (h3 : jget rest "start" = none) (h4 : jget rest "end" = none) :
    (parseRegion i (.obj (("start_line", .num s) :: ("end_line", .num e) :: rest)) =
      parseRegion i (.obj (("start", .num s) :: ("end", .num e) :: rest))) ∧
    ∀ vs ve : Json,
      parseRegion i (.obj (("start_line", .num s) :: ("end_line", .num e) ::
          ("start", vs) :: ("end", ve) :: rest)) =
        parseRegion i (.obj (("start_line", .num s) :: ("end_line", .num e) :: rest)) := by
  have hred1 : parseRegion i (.obj (("start_line", .num s) :: ("end_line", .num e) :: rest)) =
      parseRegionFields i (("start_line", .num s) :: ("end_line", .num e) :: rest) s e := by
    refine parseRegion_reduce i _ s e ?_ ?_
    · rw [jget_cons_self _ _ _ (by rw [jget_cons_ne _ _ _ _ (by decide)]; exact h1)]
      rfl
    · rw [jget_cons_ne _ _ _ _ (by decide),
        jget_cons_self _ _ _ h2]
      rfl
  have hred2 : parseRegion i (.obj (("start", .num s) :: ("end", .num e) :: rest)) =
      parseRegionFields i (("start", .num s) :: ("end", .num e) :: rest) s e := by
    refine parseRegion_reduce i _ s e ?_ ?_
    · rw [jget_cons2_ne _ _ _ _ _ _ (by decide) (by decide), h1,
        jget_cons_self _ _ _ (by rw [jget_cons_ne _ _ _ _ (by decide)]; exact h3)]
      rfl
    · rw [jget_cons2_ne _ _ _ _ _ _ (by decide) (by decide), h2,
        jget_cons_ne _ _ _ _ (by decide), jget_cons_self _ _ _ h4]
      rfl
  refine ⟨?_, ?_⟩
  · rw [hred1, hred2]
    exact parseRegionFields_congr i _ _ s e
      (by rw [jget_cons2_ne _ _ _ _ _ _ (by decide) (by decide),
        jget_cons2_ne _ _ _ _ _ _ (by decide) (by decide)])
      (by rw [jget_cons2_ne _ _ _ _ _ _ (by decide) (by decide),
        jget_cons2_ne _ _ _ _ _ _ (by decide) (by decide)])
      (by rw [jget_cons2_ne _ _ _ _ _ _ (by decide) (by decide),
        jget_cons2_ne _ _ _ _ _ _ (by decide) (by decide)])
      (by rw [jget_cons2_ne _ _ _ _ _ _ (by decide) (by decide),
        jget_cons2_ne _ _ _ _ _ _ (by decide) (by decide)])
      (by rw [jget_cons2_ne _ _ _ _ _ _ (by decide) (by decide),
        jget_cons2_ne _ _ _ _ _ _ (by decide) (by decide)])
  · intro vs ve
    have hboth : parseRegion i (.obj (("start_line", .num s) :: ("end_line", .num e) ::
        ("start", vs) :: ("end", ve) :: rest)) =
        parseRegionFields i (("start_line", .num s) :: ("end_line", .num e) ::
          ("start", vs) :: ("end", ve) :: rest) s e := by
      refine parseRegion_reduce i _ s e ?_ ?_
      · rw [jget_cons_self _ _ _ (by
          rw [jget_cons_ne _ _ _ _ (by decide), jget_cons2_ne _ _ _ _ _ _ (by decide) (by decide)]
          exact h1)]
        rfl
      · rw [jget_cons_ne _ _ _ _ (by decide), jget_cons_self _ _ _ (by
          rw [jget_cons2_ne _ _ _ _ _ _ (by decide) (by decide)]
          exact h2)]
        rfl
    rw [hboth, hred1]
    exact parseRegionFields_congr i _ _ s e
      (by rw [jget_cons2_ne _ _ _ _ _ _ (by decide) (by decide),
        jget_cons2_ne _ _ _ _ _ _ (by decide) (by decide),
        jget_cons2_ne _ _ _ _ _ _ (by decide) (by decide)])
      (by rw [jget_cons2_ne _ _ _ _ _ _ (by decide) (by decide),
        jget_cons2_ne _ _ _ _ _ _ (by decide) (by decide),
        jget_cons2_ne _ _ _ _ _ _ (by decide) (by decide)])
      (by rw [jget_cons2_ne _ _ _ _ _ _ (by decide) (by decide),
        jget_cons2_ne _ _ _ _ _ _ (by decide) (by decide),
        jget_cons2_ne _ _ _ _ _ _ (by decide) (by decide)])
      (by rw [jget_cons2_ne _ _ _ _ _ _ (by decide) (by decide),
        jget_cons2_ne _ _ _ _ _ _ (by decide) (by decide),
        jget_cons2_ne _ _ _ _ _ _ (by decide) (by decide)])
      (by rw [jget_cons2_ne _ _ _ _ _ _ (by decide) (by decide),
        jget_cons2_ne _ _ _ _ _ _ (by decide) (by decide),
        jget_cons2_ne _ _ _ _ _ _ (by decide) (by decide)])

/-- Witness for C6 at a concrete region carrying `type`, `confidence` and
`description` fields. -/
theorem parseRegion_legacy_field_names_witness :
    jget [("type", Json.str "Switch Dispatcher"), ("confidence", Json.str "high"),
        ("description", Json.str "d")] "start_line" = none ∧
    jget [("type", Json.str "Switch Dispatcher"), ("confidence", Json.str "high"),
        ("description", Json.str "d")] "end_line" = none ∧
    jget [("type", Json.str "Switch Dispatcher"), ("confidence", Json.str "high"),
        ("description", Json.str "d")] "start" = none ∧
    jget [("type", Json.str "Switch Dispatcher"), ("confidence", Json.str "high"),
        ("description", Json.str "d")] "end" = none ∧
    ((parseRegion 0 (.obj (("start_line", .num 3) :: ("end_line", .num 7) ::
        [("type", Json.str "Switch Dispatcher"), ("confidence", Json.str "high"),
          ("description", Json.str "d")])) =
      parseRegion 0 (.obj (("start", .num 3) :: ("end", .num 7) ::
        [("type", Json.str "Switch Dispatcher"), ("confidence", Json.str "high"),
          ("description", Json.str "d")]))) ∧
    ∀ vs ve : Json,
      parseRegion 0 (.obj (("start_line", .num 3) :: ("end_line", .num 7) ::
          ("start", vs) :: ("end", ve) ::
          [("type", Json.str "Switch Dispatcher"), ("confidence", Json.str "high"),
            ("description", Json.str "d")])) =
        parseRegion 0 (.obj (("start_line", .num 3) :: ("end_line", .num 7) ::
          [("type", Json.str "Switch Dispatcher"), ("confidence", Json.str "high"),
            ("description", Json.str "d")]))) :=
  ⟨rfl, rfl, rfl, rfl,
    parseRegion_legacy_field_names 0 3 7
      [("type", Json.str "Switch Dispatcher"), ("confidence", Json.str "high"),
        ("description", Json.str "d")] rfl rfl rfl rfl⟩

/-- A failure of the first region aborts the loop whatever regions follow. -/
theorem parseRegions_cons_error (r : Json) (more : List Json) (msg : String)
    (h : parseRegion 0 r = .error msg) : parseRegions 0 (r :: more) = .error msg := by
  unfold parseRegions
  rw [h]

theorem parseDetectionResultJson_region_error (s0 : String) (arr : List Json) (msg : String)
    (h : parseRegions 0 arr = .error msg) :
    parseDetectionResultJson (.obj [("summary", Json.str s0), ("regions", Json.arr arr)]) =
      .error msg := by
  have hred : parseDetectionResultJson
      (.obj [("summary", Json.str s0), ("regions", Json.arr arr)]) =
      match parseRegions 0 arr with
      | .error e => .error e
      | .ok validatedRegions =>
          .ok { summary := .strSum s0,
                global_bytecode :=
                  parseGlobalBytecode [("summary", Json.str s0), ("regions", Json.arr arr)],
                regions := validatedRegions } := rfl
  rw [hred, h]

/-- A region whose coalesced `start_line ?? start` is not a number (missing
under both names, `null`, or any non-number value) fails the `start` check. -/
theorem parseRegion_start_error (i : Nat) (fs : List (String × Json))
    (h : ∀ n : Rat, coalesce (jget fs "start_line") (jget fs "start") ≠ some (.num n)) :
    parseRegion i (.obj fs) =
      .error ("LLM 响应格式无效，regions[" ++ toString i ++
        "] 缺少必需字段: start_line 或 start") := by
  unfold parseRegion
  simp only [jfields?]

/-- A region whose `start` passes but whose coalesced `end_line ?? end` is
not a number fails the `end` check. -/
theorem parseRegion_end_error (i : Nat) (fs : List (String × Json)) (s : Rat)
    (hs : coalesce (jget fs "start_line") (jget fs "start") = some (.num s))
    (h : ∀ n : Rat, coalesce (jget fs "end_line") (jget fs "end") ≠ some (.num n)) :
    parseRegion i (.obj fs) =
      .error ("LLM 响应格式无效，regions[" ++ toString i ++
        "] 缺少必需字段: end_line 或 end") := by
  unfold parseRegion
  simp only [jfields?]
  rw [hs]

/-- A region whose `type` property is not a string (absent included) fails
the `type` check. -/
theorem parseRegionFields_type_error (i : Nat) (fs : List (String × Json)) (s e : Rat)
    (h : ∀ str : String, jget fs "type" ≠ some (.str str)) :
    parseRegionFields i fs s e =
      .error ("LLM 响应格式无效，regions[" ++ toString i ++ "] 缺少必需字段: type") := by
  unfold parseRegionFields
  cases hc : jget fs "type" with
  | none => rfl
  | some v =>
      cases v with
      | null => rfl
      | bool b => rfl
      | num n => rfl
      | str str => exact absurd hc (h str)
      | arr l => rfl
      | obj f => rfl

/-- A region whose `type` is a string but whose `confidence` is not a string
fails the `confidence` check (string-ness of `confidence` is checked before
the `type` enumeration, so `ty` is arbitrary here). -/
theorem parseRegionFields_confidence_error (i : Nat) (fs : List (String × Json)) (s e : Rat)
    (ty : String) (hty : jget fs "type" = some (.str ty))
    (h : ∀ str : String, jget fs "confidence" ≠ some (.str str)) :
    parseRegionFields i fs s e =
      .error ("LLM 响应格式无效，regions[" ++ toString i ++ "] 缺少必需字段: confidence") := by
  unfold parseRegionFields
  rw [hty]
  cases hc : jget fs "confidence" with
  | none => rfl
  | some v =>
      cases v with
      | null => rfl
      | bool b => rfl
      | num n => rfl
      | str str => exact absurd hc (h str)
      | arr l => rfl
      | obj f => rfl

/-- A region whose `type` and `confidence` are strings but whose
`description` is not a string fails the `description` check (checked before
either enumeration, so `ty` and `cf` are arbitrary here). -/
theorem parseRegionFields_description_error (i : Nat) (fs : List (String × Json)) (s e : Rat)
    (ty cf : String) (hty : jget fs "type" = some (.str ty))
    (hcf : jget fs "confidence" = some (.str cf))
    (h : ∀ str : String, jget fs "description" ≠ some (.str str)) :
    parseRegionFields i fs s e =
      .error ("LLM 响应格式无效，regions[" ++ toString i ++ "] 缺少必需字段: description") := by
  unfold parseRegionFields
  rw [hty, hcf]
  cases hc : jget fs "description" with
  | none => rfl
  | some v =>
      cases v with
      | null => rfl
      | bool b => rfl
      | num n => rfl
      | str str => exact absurd hc (h str)
      | arr l => rfl
      | obj f => rfl

/-- A region whose five required fields are well-typed but whose `type`
string lies outside the closed enumeration fails with the message listing
the accepted values. -/
theorem parseRegionFields_type_enum_error (i : Nat) (fs : List (String × Json)) (s e : Rat)
    (ty cf d : String) (hty : jget fs "type" = some (.str ty))
    (hcf : jget fs "confidence" = some (.str cf))
    (hd : jget fs "description" = some (.str d))
    (henum : ty ∉ VALID_DETECTION_TYPES) :
    parseRegionFields i fs s e =
      .error ("LLM 响应格式无效，regions[" ++ toString i ++ "].type 值无效: \"" ++ ty ++
        "\". 有效值: " ++ String.intercalate ", " VALID_DETECTION_TYPES) := by
  unfold parseRegionFields
  rw [hty, hcf, hd]
  show (if ty ∈ VALID_DETECTION_TYPES then _ else _) = _
  rw [if_neg henum]

/-- A region whose five required fields are well-typed and whose `type` is
valid but whose `confidence` string lies outside the closed enumeration
fails with the message listing the accepted values. -/
theorem parseRegionFields_confidence_enum_error (i : Nat) (fs : List (String × Json))
    (s e : Rat) (ty cf d : String) (hty : jget fs "type" = some (.str ty))
    (hcf : jget fs "confidence" = some (.str cf))
    (hd : jget fs "description" = some (.str d))
    (htymem : ty ∈ VALID_DETECTION_TYPES)
    (henum : cf ∉ VALID_CONFIDENCE_LEVELS) :
    parseRegionFields i fs s e =
      .error ("LLM 响应格式无效，regions[" ++ toString i ++ "].confidence 值无效: \"" ++ cf ++
        "\". 有效值: " ++ String.intercalate ", " VALID_CONFIDENCE_LEVELS) := by
  unfold parseRegionFields
  rw [hty, hcf, hd]
  show (if ty ∈ VALID_DETECTION_TYPES then (if cf ∈ VALID_CONFIDENCE_LEVELS then _ else _)
    else _) = _
  rw [if_pos htymem, if_neg henum]

/-- C7: the parser rejects, with the exact message naming the offending
field (and, for enum violations, listing the accepted value set), every
response missing `summary`, every response missing `regions`, and every
response containing a region that is missing or mistyping any of
`start`/`start_line`, `end`/`end_line`, `type`, `confidence` or
`description`, or whose `type` or `confidence` lies outside the closed
enumerations. Each region-level conjunct is general: the summary string, the
region's remaining fields, any trailing regions and the offending value are
arbitrary; "missing or mistyped" is captured by the same hypothesis the code
tests (the property is not a number resp. not a string). -/
theorem parseDetectionResult_validation_errors :
    (∀ fs : List (String × Json), jget fs "summary" = none →
      parseDetectionResultJson (.obj fs) = .error "LLM 响应格式无效，缺少必需字段: summary") ∧
    (∀ (fs : List (String × Json)) (str0 : String), jget fs "summary" = some (.str str0) →
      jget fs "regions" = none →
      parseDetectionResultJson (.obj fs) = .error "LLM 响应格式无效，缺少必需字段: regions") ∧
    (∀ (s0 : String) (more : List Json) (fs : List (String × Json)),
      (∀ n : Rat, coalesce (jget fs "start_line") (jget fs "start") ≠ some (.num n)) →
      parseDetectionResultJson
          (.obj [("summary", Json.str s0), ("regions", Json.arr (Json.obj fs :: more))]) =
        .error ("LLM 响应格式无效，regions[" ++ toString (0 : Nat) ++
          "] 缺少必需字段: start_line 或 start")) ∧
    (∀ (s0 : String) (more : List Json) (fs : List (String × Json)) (s : Rat),
      coalesce (jget fs "start_line") (jget fs "start") = some (.num s) →
      (∀ n : Rat, coalesce (jget fs "end_line") (jget fs "end") ≠ some (.num n)) →
      parseDetectionResultJson
          (.obj [("summary", Json.str s0), ("regions", Json.arr (Json.obj fs :: more))]) =
        .error ("LLM 响应格式无效，regions[" ++ toString (0 : Nat) ++
          "] 缺少必需字段: end_line 或 end")) ∧
    (∀ (s0 : String) (more : List Json) (fs : List (String × Json)) (s e : Rat),
      coalesce (jget fs "start_line") (jget fs "start") = some (.num s) →
      coalesce (jget fs "end_line") (jget fs "end") = some (.num e) →
      (∀ str : String, jget fs "type" ≠ some (.str str)) →
      parseDetectionResultJson
          (.obj [("summary", Json.str s0), ("regions", Json.arr (Json.obj fs :: more))]) =
        .error ("LLM 响应格式无效，regions[" ++ toString (0 : Nat) ++
          "] 缺少必需字段: type")) ∧
    (∀ (s0 : String) (more : List Json) (fs : List (String × Json)) (s e : Rat) (ty : String),
      coalesce (jget fs "start_line") (jget fs "start") = some (.num s) →
      coalesce (jget fs "end_line") (jget fs "end") = some (.num e) →
      jget fs "type" = some (.str ty) →
      (∀ str : String, jget fs "confidence" ≠ some (.str str)) →
      parseDetectionResultJson
          (.obj [("summary", Json.str s0), ("regions", Json.arr (Json.obj fs :: more))]) =
        .error ("LLM 响应格式无效，regions[" ++ toString (0 : Nat) ++
          "] 缺少必需字段: confidence")) ∧
    (∀ (s0 : String) (more : List Json) (fs : List (String × Json)) (s e : Rat)
        (ty cf : String),
      coalesce (jget fs "start_line") (jget fs "start") = some (.num s) →
      coalesce (jget fs "end_line") (jget fs "end") = some (.num e) →
      jget fs "type" = some (.str ty) →
      jget fs "confidence" = some (.str cf) →
      (∀ str : String, jget fs "description" ≠ some (.str str)) →
      parseDetectionResultJson
          (.obj [("summary", Json.str s0), ("regions", Json.arr (Json.obj fs :: more))]) =
        .error ("LLM 响应格式无效，regions[" ++ toString (0 : Nat) ++
          "] 缺少必需字段: description")) ∧
    (∀ (s0 : String) (more : List Json) (fs : List (String × Json)) (s e : Rat)
        (ty cf d : String),
      coalesce (jget fs "start_line") (jget fs "start") = some (.num s) →
      coalesce (jget fs "end_line") (jget fs "end") = some (.num e) →
      jget fs "type" = some (.str ty) →
      jget fs "confidence" = some (.str cf) →
      jget fs "description" = some (.str d) →
      ty ∉ VALID_DETECTION_TYPES →
      parseDetectionResultJson
          (.obj [("summary", Json.str s0), ("regions", Json.arr (Json.obj fs :: more))]) =
        .error ("LLM 响应格式无效，regions[" ++ toString (0 : Nat) ++ "].type 值无效: \"" ++
          ty ++ "\". 有效值: " ++ String.intercalate ", " VALID_DETECTION_TYPES)) ∧
    (∀ (s0 : String) (more : List Json) (fs : List (String × Json)) (s e : Rat)
        (ty cf d : String),
      coalesce (jget fs "start_line") (jget fs "start") = some (.num s) →
      coalesce (jget fs "end_line") (jget fs "end") = some (.num e) →
      jget fs "type" = some (.str ty) →
      jget fs "confidence" = some (.str cf) →
      jget fs "description" = some (.str d) →
      ty ∈ VALID_DETECTION_TYPES →
      cf ∉ VALID_CONFIDENCE_LEVELS →
      parseDetectionResultJson
          (.obj [("summary", Json.str s0), ("regions", Json.arr (Json.obj fs :: more))]) =
        .error ("LLM 响应格式无效，regions[" ++ toString (0 : Nat) ++
          "].confidence 值无效: \"" ++ cf ++ "\". 有效值: " ++
          String.intercalate ", " VALID_CONFIDENCE_LEVELS)) := by
  refine ⟨?_, ?_, ?_, ?_, ?_, ?_, ?_, ?_, ?_⟩
  · intro fs h
    unfold parseDetectionResultJson
    simp only [jfields?]
    rw [h]
    rfl
  · intro fs str0 hsum hreg
    unfold parseDetectionResultJson
    simp only [jfields?]
    rw [hsum, hreg]
    rfl
  · intro s0 more fs h
    exact parseDetectionResultJson_region_error s0 _ _
      (parseRegions_cons_error _ more _ (parseRegion_start_error 0 fs h))
  · intro s0 more fs s hs h
    exact parseDetectionResultJson_region_error s0 _ _
      (parseRegions_cons_error _ more _ (parseRegion_end_error 0 fs s hs h))
  · intro s0 more fs s e hs he h
    refine parseDetectionResultJson_region_error s0 _ _
      (parseRegions_cons_error _ more _ ?_)
    rw [parseRegion_reduce 0 fs s e hs he]
    exact parseRegionFields_type_error 0 fs s e h
  · intro s0 more fs s e ty hs he hty h
    refine parseDetectionResultJson_region_error s0 _ _
      (parseRegions_cons_error _ more _ ?_)
    rw [parseRegion_reduce 0 fs s e hs he]
    exact parseRegionFields_confidence_error 0 fs s e ty hty h
  · intro s0 more fs s e ty cf hs he hty hcf h
    refine parseDetectionResultJson_region_error s0 _ _
      (parseRegions_cons_error _ more _ ?_)
    rw [parseRegion_reduce 0 fs s e hs he]
    exact parseRegionFields_description_error 0 fs s e ty cf hty hcf h
  · intro s0 more fs s e ty cf d hs he hty hcf hd henum
    refine parseDetectionResultJson_region_error s0 _ _
      (parseRegions_cons_error _ more _ ?_)
    rw [parseRegion_reduce 0 fs s e hs he]
    exact parseRegionFields_type_enum_error 0 fs s e ty cf d hty hcf hd henum
  · intro s0 more fs s e ty cf d hs he hty hcf hd htymem henum
    refine parseDetectionResultJson_region_error s0 _ _
      (parseRegions_cons_error _ more _ ?_)
    rw [parseRegion_reduce 0 fs s e hs he]
    exact parseRegionFields_confidence_enum_error 0 fs s e ty cf d hty hcf hd htymem henum

/-- Witness for C7: every conjunct instantiated at a concrete defective
response — missing summary, missing regions, missing start, MISTYPED end
(a string), missing type, MISTYPED confidence (a boolean), MISTYPED
description (a number), invalid type enum, invalid confidence enum. -/
theorem parseDetectionResult_validation_errors_witness :
    (jget ([] : List (String × Json)) "summary" = none ∧
      parseDetectionResultJson (.obj []) =
        .error "LLM 响应格式无效，缺少必需字段: summary") ∧
    (jget [("summary", Json.str "s")] "summary" = some (.str "s") ∧
      jget [("summary", Json.str "s")] "regions" = none ∧
      parseDetectionResultJson (.obj [("summary", Json.str "s")]) =
        .error "LLM 响应格式无效，缺少必需字段: regions") ∧
    ((∀ n : Rat, coalesce (jget [("end_line", Json.num 2)] "start_line")
        (jget [("end_line", Json.num 2)] "start") ≠ some (.num n)) ∧
      parseDetectionResultJson (.obj [("summary", Json.str "s"),
          ("regions", Json.arr (Json.obj [("end_line", Json.num 2)] :: []))]) =
        .error ("LLM 响应格式无效，regions[" ++ toString (0 : Nat) ++
          "] 缺少必需字段: start_line 或 start")) ∧
    (coalesce (jget [("start_line", Json.num 1), ("end_line", Json.str "x")] "start_line")
        (jget [("start_line", Json.num 1), ("end_line", Json.str "x")] "start") =
          some (.num 1) ∧
      (∀ n : Rat, coalesce
        (jget [("start_line", Json.num 1), ("end_line", Json.str "x")] "end_line")
        (jget [("start_line", Json.num 1), ("end_line", Json.str "x")] "end") ≠
          some (.num n)) ∧
      parseDetectionResultJson (.obj [("summary", Json.str "s"),
          ("regions", Json.arr
            (Json.obj [("start_line", Json.num 1), ("end_line", Json.str "x")] :: []))]) =
        .error ("LLM 响应格式无效，regions[" ++ toString (0 : Nat) ++
          "] 缺少必需字段: end_line 或 end")) ∧
    ((∀ str : String, jget [("start_line", Json.num 1), ("end_line", Json.num 2),
        ("confidence", Json.str "high"), ("description", Json.str "d")] "type" ≠
          some (.str str)) ∧
      parseDetectionResultJson (.obj [("summary", Json.str "s"),
          ("regions", Json.arr
            (Json.obj [("start_line", Json.num 1), ("end_line", Json.num 2),
              ("confidence", Json.str "high"), ("description", Json.str "d")] :: []))]) =
        .error ("LLM 响应格式无效，regions[" ++ toString (0 : Nat) ++
          "] 缺少必需字段: type")) ∧
    ((∀ str : String, jget [("start_line", Json.num 1), ("end_line", Json.num 2),
        ("type", Json.str "Switch Dispatcher"), ("confidence", Json.bool true),
        ("description", Json.str "d")] "confidence" ≠ some (.str str)) ∧
      parseDetectionResultJson (.obj [("summary", Json.str "s"),
          ("regions", Json.arr
            (Json.obj [("start_line", Json.num 1), ("end_line", Json.num 2),
              ("type", Json.str "Switch Dispatcher"), ("confidence", Json.bool true),
              ("description", Json.str "d")] :: []))]) =
        .error ("LLM 响应格式无效，regions[" ++ toString (0 : Nat) ++
          "] 缺少必需字段: confidence")) ∧
    ((∀ str : String, jget [("start_line", Json.num 1), ("end_line", Json.num 2),
        ("type", Json.str "Switch Dispatcher"), ("confidence", Json.str "high"),
        ("description", Json.num 3)] "description" ≠ some (.str str)) ∧
      parseDetectionResultJson (.obj [("summary", Json.str "s"),
          ("regions", Json.arr
            (Json.obj [("start_line", Json.num 1), ("end_line", Json.num 2),
              ("type", Json.str "Switch Dispatcher"), ("confidence", Json.str "high"),
              ("description", Json.num 3)] :: []))]) =
        .error ("LLM 响应格式无效，regions[" ++ toString (0 : Nat) ++
          "] 缺少必需字段: description")) ∧
    ("Bogus" ∉ VALID_DETECTION_TYPES ∧
      parseDetectionResultJson (.obj [("summary", Json.str "s"),
          ("regions", Json.arr
            (Json.obj [("start_line", Json.num 1), ("end_line", Json.num 2),
              ("type", Json.str "Bogus"), ("confidence", Json.str "high"),
              ("description", Json.str "d")] :: []))]) =
        .error ("LLM 响应格式无效，regions[" ++ toString (0 : Nat) ++ "].type 值无效: \"" ++
          "Bogus" ++ "\". 有效值: " ++ String.intercalate ", " VALID_DETECTION_TYPES)) ∧
    ("bogus" ∉ VALID_CONFIDENCE_LEVELS ∧
      parseDetectionResultJson (.obj [("summary", Json.str "s"),
          ("regions", Json.arr
            (Json.obj [("start_line", Json.num 1), ("end_line", Json.num 2),
              ("type", Json.str "Switch Dispatcher"), ("confidence", Json.str "bogus"),
              ("description", Json.str "d")] :: []))]) =
        .error ("LLM 响应格式无效，regions[" ++ toString (0 : Nat) ++
          "].confidence 值无效: \"" ++ "bogus" ++ "\". 有效值: " ++
          String.intercalate ", " VALID_CONFIDENCE_LEVELS)) :=
  ⟨⟨rfl, parseDetectionResult_validation_errors.1 [] rfl⟩,
    ⟨rfl, rfl,
      parseDetectionResult_validation_errors.2.1 [("summary", Json.str "s")] "s" rfl rfl⟩,
    ⟨fun n h => Option.noConfusion h,
      parseDetectionResult_validation_errors.2.2.1 "s" [] [("end_line", Json.num 2)]
        (fun n h => Option.noConfusion h)⟩,
    ⟨rfl, fun n h => Json.noConfusion (Option.some.inj h),
      parseDetectionResult_validation_errors.2.2.2.1 "s" []
        [("start_line", Json.num 1), ("end_line", Json.str "x")] 1 rfl
        (fun n h => Json.noConfusion (Option.some.inj h))⟩,
    ⟨fun str h => Option.noConfusion h,
      parseDetectionResult_validation_errors.2.2.2.2.1 "s" []
        [("start_line", Json.num 1), ("end_line", Json.num 2),
          ("confidence", Json.str "high"), ("description", Json.str "d")] 1 2 rfl rfl
        (fun str h => Option.noConfusion h)⟩,
    ⟨fun str h => Json.noConfusion (Option.some.inj h),
      parseDetectionResult_validation_errors.2.2.2.2.2.1 "s" []
        [("start_line", Json.num 1), ("end_line", Json.num 2),
          ("type", Json.str "Switch Dispatcher"), ("confidence", Json.bool true),
          ("description", Json.str "d")] 1 2 "Switch Dispatcher" rfl rfl rfl
        (fun str h => Json.noConfusion (Option.some.inj h))⟩,
    ⟨fun str h => Json.noConfusion (Option.some.inj h),
      parseDetectionResult_validation_errors.2.2.2.2.2.2.1 "s" []
        [("start_line", Json.num 1), ("end_line", Json.num 2),
          ("type", Json.str "Switch Dispatcher"), ("confidence", Json.str "high"),
          ("description", Json.num 3)] 1 2 "Switch Dispatcher" "high" rfl rfl rfl rfl
        (fun str h => Json.noConfusion (Option.some.inj h))⟩,
    ⟨by decide,
      parseDetectionResult_validation_errors.2.2.2.2.2.2.2.1 "s" []
        [("start_line", Json.num 1), ("end_line", Json.num 2),
          ("type", Json.str "Bogus"), ("confidence", Json.str "high"),
          ("description", Json.str "d")] 1 2 "Bogus" "high" "d" rfl rfl rfl rfl rfl
        (by decide)⟩,
    ⟨by decide,
      parseDetectionResult_validation_errors.2.2.2.2.2.2.2.2 "s" []
        [("start_line", Json.num 1), ("end_line", Json.num 2),
          ("type", Json.str "Switch Dispatcher"), ("confidence", Json.str "bogus"),
          ("description", Json.str "d")] 1 2 "Switch Dispatcher" "bogus" "d" rfl rfl rfl rfl rfl
        (by decide) (by decide)⟩⟩

/-- Shorthand for a `DetectionRegion` without optional enrichments, used in
concrete statements. -/
def mkRegion (s e : Rat) (ty : String) (c : ConfidenceLevel) (d : String) : DetectionRegion :=
  { start := s, «end» := e, type := ty, confidence := c, description := d }

/-- C10: the region validation never compares the two bounds: an
otherwise-valid region whose numeric `start` exceeds its numeric `end`
(rationals, so non-integer numerals included) parses successfully into a
`DetectionRegion` with `start > end` — the data model's `start <= end`
invariant is not enforced at the parser boundary. -/
theorem parseDetectionResult_no_bounds_check (s e : Rat) (h : e < s) :
    parseDetectionResultJson (.obj [("summary", Json.str "sum"), ("regions", Json.arr
        [Json.obj [("start_line", Json.num s), ("end_line", Json.num e),
          ("type", Json.str "Switch Dispatcher"), ("confidence", Json.str "high"),
          ("description", Json.str "d")]])]) =
      .ok { summary := .strSum "sum", global_bytecode := none,
            regions := [mkRegion s e "Switch Dispatcher" .high "d"] } ∧
    (mkRegion s e "Switch Dispatcher" .high "d").«end» <
      (mkRegion s e "Switch Dispatcher" .high "d").start :=
  ⟨rfl, h⟩

/-- Witness for C10 at non-integer bounds 7/2 and 3/2. -/
theorem parseDetectionResult_no_bounds_check_witness :
    (3 / 2 : Rat) < 7 / 2 ∧
    (parseDetectionResultJson (.obj [("summary", Json.str "sum"), ("regions", Json.arr
        [Json.obj [("start_line", Json.num (7 / 2)), ("end_line", Json.num (3 / 2)),
          ("type", Json.str "Switch Dispatcher"), ("confidence", Json.str "high"),
          ("description", Json.str "d")]])]) =
      .ok { summary := .strSum "sum", global_bytecode := none,
            regions := [mkRegion (7 / 2) (3 / 2) "Switch Dispatcher" .high "d"] } ∧
    (mkRegion (7 / 2) (3 / 2) "Switch Dispatcher" .high "d").«end» <
      (mkRegion (7 / 2) (3 / 2) "Switch Dispatcher" .high "d").start) :=
  ⟨by norm_num, parseDetectionResult_no_bounds_check (7 / 2) (3 / 2) (by norm_num)⟩

/-! ## Result merger (`mergeDetectionResults`, source lines 1246-1338)

JavaScript `Array.prototype.sort` with the comparator
`(a, b) => a.start - b.start` is a stable ascending sort by `start`; any two
stable sorts by the same key agree, so it is modelled by Mathlib's stable
`List.insertionSort` under the relation `regionLE`. -/

/-- The sort order of the comparator `(a, b) => a.start - b.start`. -/
def regionLE (a b : DetectionRegion) : Prop := a.start ≤ b.start

instance (a b : DetectionRegion) : Decidable (regionLE a b) :=
  inferInstanceAs (Decidable (a.start ≤ b.start))

instance : IsTotal DetectionRegion regionLE :=
  ⟨fun a b => le_total a.start b.start⟩

instance : IsTrans DetectionRegion regionLE :=
  ⟨fun _ _ _ hab hbc => le_trans hab hbc⟩

/-- The overlap test of the dedup loop (source line 1314):
`region.start <= existing.end && region.end >= existing.start`.
This relation is symmetric. -/
def overlaps (a b : DetectionRegion) : Prop :=
  a.start ≤ b.«end» ∧ a.«end» ≥ b.start

instance (a b : DetectionRegion) : Decidable (overlaps a b) :=
  inferInstanceAs (Decidable (_ ∧ _))

theorem overlaps_symm (a b : DetectionRegion) (h : overlaps a b) : overlaps b a :=
  ⟨h.2, h.1⟩

/-- One iteration of the dedup loop (source lines 1308-1331): scan the
already-accepted regions for the first one overlapping `region`; if none
overlaps, append `region` at the end; otherwise replace the overlapping
entry in place when `region` has strictly higher confidence, and keep the
accepted entry on a tie or when it is higher. -/
def dedupInsert (region : DetectionRegion) : List DetectionRegion → List DetectionRegion
  | [] => [region]
  | existing :: acc =>
      if overlaps region existing then
        if confidenceOrder region.confidence > confidenceOrder existing.confidence then
          region :: acc
        else
          existing :: acc
      else
        existing :: dedupInsert region acc

/-- The dedup pass over the sorted region list (source lines 1307-1331). -/
def dedupRegions (l : List DetectionRegion) : List DetectionRegion :=
  l.foldl (fun acc region => dedupInsert region acc) []

/-- Region collection across all input results (source lines 1291-1294). -/
def allRegionsOf (results : List DetectionResult) : List DetectionRegion :=
  results.foldl (fun acc r => acc ++ r.regions) []

/-- Rendering of a summary to text, as used when combining summaries
(source lines 1263-1270): the object form contributes its
`overall_description`. -/
def summaryText : SummaryValue → String
  | .strSum s => s
  | .objSum d => d.overall_description

/-- The combined summary of the multi-batch branch (source lines 1261-1279):
batch-tagged parts joined by newlines; the `debugging_recommendation` comes
from the last batch's structured summary, with a generic fallback when the
last summary is a plain string. -/
def combinedSummary (results : List DetectionResult) : DetectionSummary :=
  { overall_description :=
      String.intercalate "\n" (results.enum.map
        (fun p => "[Batch " ++ toString (p.1 + 1) ++ "] " ++ summaryText p.2.summary))
    debugging_recommendation :=
      match (results.getLastD { summary := .strSum "", regions := [] }).summary with
      | .strSum _ => "请参考各批次的分析结果进行调试。"
      | .objSum d => d.debugging_recommendation }

/-- Merge of `global_bytecode` (source lines 1281-1288): the first entry
that is non-null and has a truthy (non-null, non-empty) `variable_name`. -/
def mergedGlobalBytecode (results : List DetectionResult) : Option GlobalBytecodeInfo :=
  results.findSome? (fun r =>
    match r.global_bytecode with
    | some gb =>
        match gb.variable_name with
        | some name => if name ≠ "" then some gb else none
        | none => none
    | none => none)

/-- `mergeDetectionResults` (source lines 1246-1338). The empty input yields
the empty result; a single input is returned with its regions stable-sorted
by `start` (and NOT deduplicated — the dedup pass runs only in the
multi-input branch); two or more inputs get combined summaries, the first
named global-bytecode descriptor, and the concatenated regions
stable-sorted by `start` and deduplicated. -/
def mergeDetectionResults (results : List DetectionResult) : DetectionResult :=
  match results with
  | [] => { summary := .strSum "", global_bytecode := none, regions := [] }
  | [r] =>
      { summary := r.summary, global_bytecode := r.global_bytecode,
        regions := List.insertionSort regionLE r.regions }
  | _ :: _ :: _ =>
      { summary := .objSum (combinedSummary results),
        global_bytecode := mergedGlobalBytecode results,
        regions := dedupRegions (List.insertionSort regionLE (allRegionsOf results)) }

theorem dedupInsert_no_overlap (r : DetectionRegion) :
    ∀ acc : List DetectionRegion, (∀ x ∈ acc, ¬ overlaps r x) →
      dedupInsert r acc = acc ++ [r]
  | [] => fun _ => rfl
  | existing :: acc => fun h => by
      unfold dedupInsert
      rw [if_neg (h existing (by simp))]
      rw [dedupInsert_no_overlap r acc (fun x hx => h x (by simp [hx]))]
      rfl

theorem dedup_foldl_no_overlap :
    ∀ (l acc : List DetectionRegion),
      List.Pairwise (fun a b => ¬ overlaps a b) l →
      (∀ a ∈ acc, ∀ b ∈ l, ¬ overlaps b a) →
      l.foldl (fun acc region => dedupInsert region acc) acc = acc ++ l
  | [], acc => fun _ _ => by simp
  | r :: rest, acc => fun hl hacc => by
      have h1 : dedupInsert r acc = acc ++ [r] :=
        dedupInsert_no_overlap r acc (fun x hx => hacc x hx r (by simp))
      show List.foldl _ (dedupInsert r acc) rest = _
      rw [h1]
      rw [dedup_foldl_no_overlap rest (acc ++ [r]) hl.of_cons ?_]
      · simp
      · intro a ha b hb
        rcases List.mem_append.mp ha with h | h
        · exact hacc a h b (by simp [hb])
        · rcases List.mem_singleton.mp h with rfl
          intro hov
          exact (List.pairwise_cons.mp hl).1 b hb (overlaps_symm b a hov)

/-- C9: when the regions collected from all inputs are pairwise
non-overlapping, the merged result keeps every region (same count) and its
regions are sorted ascending by `start`. Holds in all three branches of
`mergeDetectionResults`. -/
theorem mergeDetectionResults_nonoverlapping (results : List DetectionResult)
    (h : List.Pairwise (fun a b => ¬ overlaps a b) (allRegionsOf results)) :
    (mergeDetectionResults results).regions.length = (allRegionsOf results).length ∧
    List.Sorted regionLE (mergeDetectionResults results).regions := by
  match results with
  | [] => exact ⟨rfl, List.sorted_nil⟩
  | [r] =>
      have hm : (mergeDetectionResults [r]).regions = List.insertionSort regionLE r.regions := rfl
      have ha : allRegionsOf [r] = r.regions := rfl
      constructor
      · rw [hm, ha]
        simp [List.length_insertionSort]
      · rw [hm]
        exact List.sorted_insertionSort regionLE r.regions
  | r1 :: r2 :: rest =>
      have hsymm : ∀ {x y : DetectionRegion}, ¬ overlaps x y → ¬ overlaps y x :=
        fun hab hov => hab (overlaps_symm _ _ hov)
      have hperm := List.perm_insertionSort regionLE (allRegionsOf (r1 :: r2 :: rest))
      have hpair : List.Pairwise (fun a b => ¬ overlaps a b)
          (List.insertionSort regionLE (allRegionsOf (r1 :: r2 :: rest))) :=
        (List.Perm.pairwise_iff hsymm hperm).mpr h
      have hded : dedupRegions (List.insertionSort regionLE (allRegionsOf (r1 :: r2 :: rest))) =
          List.insertionSort regionLE (allRegionsOf (r1 :: r2 :: rest)) := by
        unfold dedupRegions
        rw [dedup_foldl_no_overlap _ [] hpair (by simp)]
        simp
      constructor
      · show (dedupRegions (List.insertionSort regionLE (allRegionsOf (r1 :: r2 :: rest)))).length = _
        rw [hded, List.length_insertionSort]
      · show List.Sorted regionLE
          (dedupRegions (List.insertionSort regionLE (allRegionsOf (r1 :: r2 :: rest))))
        rw [hded]
        exact List.sorted_insertionSort regionLE _

/-- Witness for C9: two results with disjoint regions merge to both regions
in sorted order. -/
theorem mergeDetectionResults_nonoverlapping_witness :
    List.Pairwise (fun a b => ¬ overlaps a b)
      (allRegionsOf [{ summary := .strSum "s1", regions := [mkRegion 30 40 "Switch Dispatcher" .high "R1"] },
        { summary := .strSum "s2", regions := [mkRegion 10 20 "Instruction Array" .low "R2"] }]) ∧
    ((mergeDetectionResults [{ summary := .strSum "s1", regions := [mkRegion 30 40 "Switch Dispatcher" .high "R1"] },
        { summary := .strSum "s2", regions := [mkRegion 10 20 "Instruction Array" .low "R2"] }]).regions.length =
      (allRegionsOf [{ summary := .strSum "s1", regions := [mkRegion 30 40 "Switch Dispatcher" .high "R1"] },
        { summary := .strSum "s2", regions := [mkRegion 10 20 "Instruction Array" .low "R2"] }]).length ∧
    List.Sorted regionLE
      (mergeDetectionResults [{ summary := .strSum "s1", regions := [mkRegion 30 40 "Switch Dispatcher" .high "R1"] },
        { summary := .strSum "s2", regions := [mkRegion 10 20 "Instruction Array" .low "R2"] }]).regions) :=
  ⟨by decide,
    mergeDetectionResults_nonoverlapping
      [{ summary := .strSum "s1", regions := [mkRegion 30 40 "Switch Dispatcher" .high "R1"] },
        { summary := .strSum "s2", regions := [mkRegion 10 20 "Instruction Array" .low "R2"] }]
      (by decide)⟩

/-- Counterexample to C3 as stated: in the single-input branch (source lines
1251-1259) the regions are only sorted, never deduplicated — two identical
overlapping medium-confidence regions both survive, where the dedup rule
would have kept exactly one. (The repository's own property test
`should return single result with sorted regions` asserts this
count-preserving behaviour, so the code, not the claim, is authoritative.) -/
theorem mergeDetectionResults_single_counterexample :
    overlaps (mkRegion 10 20 "Instruction Array" .medium "First")
      (mkRegion 10 20 "Switch Dispatcher" .medium "Second") ∧
    (mergeDetectionResults
        [{ summary := .strSum "s",
           regions := [mkRegion 10 20 "Instruction Array" .medium "First",
             mkRegion 10 20 "Switch Dispatcher" .medium "Second"] }]).regions =
      [mkRegion 10 20 "Instruction Array" .medium "First",
        mkRegion 10 20 "Switch Dispatcher" .medium "Second"] :=
  ⟨by decide, by decide⟩

/-- C3 (amended): for a single input, the returned regions are that input's
regions stable-sorted ascending by `start` — a permutation of the input's
regions, so nothing is ever dropped: the overlap/confidence deduplication is
NOT applied in the single-input branch. The summary and global-bytecode are
passed through unchanged. -/
theorem mergeDetectionResults_single (res : DetectionResult) :
    List.Perm (mergeDetectionResults [res]).regions res.regions ∧
    List.Sorted regionLE (mergeDetectionResults [res]).regions ∧
    (mergeDetectionResults [res]).summary = res.summary ∧
    (mergeDetectionResults [res]).global_bytecode = res.global_bytecode :=
  ⟨List.perm_insertionSort regionLE res.regions,
    List.sorted_insertionSort regionLE res.regions, rfl, rfl⟩

/-- Counterexample to C1 as stated: two overlapping equal-confidence regions
where the one accepted first after sorting (`start = 10`, description `B`)
is the LATER one in combined input order — the merge keeps `B`, not the
input-earlier `A`, so "earlier in combined input order" is not the
tie-breaking rule. -/
theorem mergeDetectionResults_tie_counterexample :
    overlaps (mkRegion 20 40 "Instruction Array" .medium "A")
      (mkRegion 10 25 "Switch Dispatcher" .medium "B") ∧
    (mkRegion 20 40 "Instruction Array" .medium "A").confidence =
      (mkRegion 10 25 "Switch Dispatcher" .medium "B").confidence ∧
    (mergeDetectionResults
        [{ summary := .strSum "s1", regions := [mkRegion 20 40 "Instruction Array" .medium "A"] },
          { summary := .strSum "s2", regions := [mkRegion 10 25 "Switch Dispatcher" .medium "B"] }]).regions =
      [mkRegion 10 25 "Switch Dispatcher" .medium "B"] ∧
    mkRegion 10 25 "Switch Dispatcher" .medium "B" ≠
      mkRegion 20 40 "Instruction Array" .medium "A" :=
  ⟨by decide, by decide, by decide, by decide⟩

/-- C1 (amended): merging two single-region results whose regions overlap
(overlap ⟺ `a.start <= b.end && a.end >= b.start`, so single-point touches
overlap and merely adjacent ranges do not) keeps exactly one of the two: the
one with strictly higher confidence (ultra_high > high > medium > low); on
equal confidence, the already-accepted one — that is, the first region in
the stable sort by `start`: the one with the smaller `start`, or, on equal
`start`, the earlier one in combined input order. -/
theorem mergeDetectionResults_two_overlapping (rA rB : DetectionRegion)
    (sA sB : SummaryValue) (gA gB : Option GlobalBytecodeInfo)
    (hov : overlaps rA rB) :
    (mergeDetectionResults
        [{ summary := sA, global_bytecode := gA, regions := [rA] },
          { summary := sB, global_bytecode := gB, regions := [rB] }]).regions =
      [ if confidenceOrder rA.confidence > confidenceOrder rB.confidence then rA
        else if confidenceOrder rB.confidence > confidenceOrder rA.confidence then rB
        else if rB.start < rA.start then rB else rA ] := by
  have hov' : overlaps rB rA := overlaps_symm rA rB hov
  show dedupRegions (List.insertionSort regionLE [rA, rB]) = _
  have hsort : List.insertionSort regionLE [rA, rB] =
      if regionLE rA rB then [rA, rB] else [rB, rA] := by
    simp only [List.insertionSort, List.orderedInsert]
  rcases le_or_lt rA.start rB.start with hle | hlt
  · rw [hsort, if_pos (show regionLE rA rB from hle)]
    have hd : dedupRegions [rA, rB] = dedupInsert rB [rA] := rfl
    rw [hd]
    unfold dedupInsert
    rw [if_pos hov']
    split_ifs <;> first | rfl | omega | (exfalso; rename_i h3; revert h3; simp; linarith)
  · rw [hsort, if_neg (show ¬ regionLE rA rB from not_le.mpr hlt)]
    have hd : dedupRegions [rB, rA] = dedupInsert rA [rB] := rfl
    rw [hd]
    unfold dedupInsert
    rw [if_pos hov]
    split_ifs <;> rfl

/-- Witness for the amended C1: a low-confidence region overlapping a
high-confidence one; the high-confidence region is kept. -/
theorem mergeDetectionResults_two_overlapping_witness :
    overlaps (mkRegion 10 30 "Instruction Array" .low "L")
      (mkRegion 20 40 "Switch Dispatcher" .high "H") ∧
    (mergeDetectionResults
        [{ summary := .strSum "s1", global_bytecode := none,
           regions := [mkRegion 10 30 "Instruction Array" .low "L"] },
          { summary := .strSum "s2", global_bytecode := none,
            regions := [mkRegion 20 40 "Switch Dispatcher" .high "H"] }]).regions =
      [ if confidenceOrder (mkRegion 10 30 "Instruction Array" .low "L").confidence >
            confidenceOrder (mkRegion 20 40 "Switch Dispatcher" .high "H").confidence then
          mkRegion 10 30 "Instruction Array" .low "L"
        else if confidenceOrder (mkRegion 20 40 "Switch Dispatcher" .high "H").confidence >
            confidenceOrder (mkRegion 10 30 "Instruction Array" .low "L").confidence then
          mkRegion 20 40 "Switch Dispatcher" .high "H"
        else if (mkRegion 20 40 "Switch Dispatcher" .high "H").start <
            (mkRegion 10 30 "Instruction Array" .low "L").start then
          mkRegion 20 40 "Switch Dispatcher" .high "H"
        else mkRegion 10 30 "Instruction Array" .low "L" ] :=
  ⟨by decide,
    mergeDetectionResults_two_overlapping
      (mkRegion 10 30 "Instruction Array" .low "L")
      (mkRegion 20 40 "Switch Dispatcher" .high "H")
      (.strSum "s1") (.strSum "s2") none none (by decide)⟩

/-! ## Batch processor (`processBatchesWithErrorHandling`, source lines
1347-1385)

Batches are processed strictly sequentially (one outstanding call), so the
async loop is a pure fold; the model capability `analyze` and `JSON.parse`
are the abstract parameters, with `Except.error` standing for a rejected
promise / thrown exception. -/

/-- `processBatch` (source lines 1347-1353): one model call routed through
the parser; a throw in either step propagates. -/
def processBatch (jparse : String → Except String Json)
    (analyze : String → Except String String) (batch : BatchInfo) :
    Except String DetectionResult :=
  match analyze batch.content with
  | .error e => .error e
  | .ok llmResponse => parseDetectionResult jparse llmResponse

/-- The per-batch error string of source lines 1377-1379:
`Batch {i+1} (lines {startLine}-{endLine}) failed: {message}`. -/
def batchErrorMsg (i : Nat) (batch : BatchInfo) (e : String) : String :=
  "Batch " ++ toString (i + 1) ++ " (lines " ++ toString batch.startLine ++ "-" ++
    toString batch.endLine ++ ") failed: " ++ e

/-- The `for (let i = 0; ...)` loop of `processBatchesWithErrorHandling`
(source lines 1371-1382), carrying the current index. -/
def processLoop (jparse : String → Except String Json)
    (analyze : String → Except String String) :
    Nat → List BatchInfo → List DetectionResult × List String
  | _, [] => ([], [])
  | i, batch :: rest =>
      let tail := processLoop jparse analyze (i + 1) rest
      match processBatch jparse analyze batch with
      | .ok result => (result :: tail.1, tail.2)
      | .error e => (tail.1, batchErrorMsg i batch e :: tail.2)

/-- `processBatchesWithErrorHandling` (source lines 1364-1385). -/
def processBatchesWithErrorHandling (jparse : String → Except String Json)
    (analyze : String → Except String String) (batches : List BatchInfo) :
    List DetectionResult × List String :=
  processLoop jparse analyze 0 batches

theorem processLoop_eq (jparse : String → Except String Json)
    (analyze : String → Except String String) :
    ∀ (batches : List BatchInfo) (i : Nat),
      processLoop jparse analyze i batches =
        (batches.filterMap (fun b => (processBatch jparse analyze b).toOption),
         (batches.enumFrom i).filterMap (fun p =>
           match processBatch jparse analyze p.2 with
           | .ok _ => none
           | .error e => some (batchErrorMsg p.1 p.2 e)))
  | [], _ => rfl
  | b :: rest, i => by
      have ih := processLoop_eq jparse analyze rest (i + 1)
      unfold processLoop
      rw [ih]
      cases hpb : processBatch jparse analyze b with
      | ok r => simp [hpb, Except.toOption, List.enumFrom, List.filterMap_cons]
      | error e => simp [hpb, Except.toOption, List.enumFrom, List.filterMap_cons]

theorem processLoop_all_fail (jparse : String → Except String Json)
    (analyze : String → Except String String) :
    ∀ (batches : List BatchInfo) (i : Nat),
      (∀ b ∈ batches, ∃ e, processBatch jparse analyze b = .error e) →
      (processLoop jparse analyze i batches).1 = [] ∧
      (processLoop jparse analyze i batches).2.length = batches.length
  | [], _ => fun _ => ⟨rfl, rfl⟩
  | b :: rest, i => fun h => by
      obtain ⟨e, he⟩ := h b (by simp)
      have ih := processLoop_all_fail jparse analyze rest (i + 1)
        (fun b' hb' => h b' (by simp [hb']))
      unfold processLoop
      simp only [he]
      exact ⟨ih.1, by simp [ih.2]⟩

/-- C8: the batch processor visits batches strictly in order; the returned
`results` are exactly the successfully parsed outcomes in batch order, and
the returned `errors` are exactly the failures in batch order, each
formatted with its 1-based ordinal and the batch's `startLine`-`endLine`
range (`batchErrorMsg`); empty input yields `([], [])`; and when every batch
fails, `results` is empty and `errors` has exactly one entry per batch. -/
theorem processBatchesWithErrorHandling_spec (jparse : String → Except String Json)
    (analyze : String → Except String String) (batches : List BatchInfo) :
    (processBatchesWithErrorHandling jparse analyze batches =
      (batches.filterMap (fun b => (processBatch jparse analyze b).toOption),
       batches.enum.filterMap (fun p =>
         match processBatch jparse analyze p.2 with
         | .ok _ => none
         | .error e => some (batchErrorMsg p.1 p.2 e)))) ∧
    (processBatchesWithErrorHandling jparse analyze [] = ([], [])) ∧
    ((∀ b ∈ batches, ∃ e, processBatch jparse analyze b = .error e) →
      (processBatchesWithErrorHandling jparse analyze batches).1 = [] ∧
      (processBatchesWithErrorHandling jparse analyze batches).2.length = batches.length) :=
  ⟨processLoop_eq jparse analyze batches 0, rfl,
    fun h => processLoop_all_fail jparse analyze batches 0 h⟩

/-- A `JSON.parse` stand-in that always throws, used by the witness. -/
def demoJparse : String → Except String Json := fun _ => .error "bad json"

/-- A model capability that always returns the same (unparseable) text. -/
def demoAnalyze : String → Except String String := fun _ => .ok "resp"

/-- Witness for C8: two batches that both fail to parse give zero results
and two errors. -/
theorem processBatchesWithErrorHandling_spec_witness :
    (∀ b ∈ [(⟨1, 3, "c1", 5⟩ : BatchInfo), ⟨4, 6, "c2", 5⟩],
      ∃ e, processBatch demoJparse demoAnalyze b = .error e) ∧
    (processBatchesWithErrorHandling demoJparse demoAnalyze
        [⟨1, 3, "c1", 5⟩, ⟨4, 6, "c2", 5⟩]).1 = [] ∧
    (processBatchesWithErrorHandling demoJparse demoAnalyze
        [⟨1, 3, "c1", 5⟩, ⟨4, 6, "c2", 5⟩]).2.length = 2 :=
  ⟨fun _ _ => ⟨"无法解析 LLM 响应: bad json", rfl⟩,
    ((processBatchesWithErrorHandling_spec demoJparse demoAnalyze
        [⟨1, 3, "c1", 5⟩, ⟨4, 6, "c2", 5⟩]).2.2
      (fun _ _ => ⟨"无法解析 LLM 响应: bad json", rfl⟩)).1,
    ((processBatchesWithErrorHandling_spec demoJparse demoAnalyze
        [⟨1, 3, "c1", 5⟩, ⟨4, 6, "c2", 5⟩]).2.2
      (fun _ _ => ⟨"无法解析 LLM 响应: bad json", rfl⟩)).2⟩

end AiTools
